import Mathlib

/-! Verification of the session matcher pipeline: a program that reads two
tabular files, validates required columns, inner-joins them on the
"Appointment ID" column, filters rows whose "Completed" value normalizes
to "yes", and exports the result as a single-sheet spreadsheet. The
definitions below are a shallow embedding of the functions of
src/unverify_checker.py together with the dataframe-library operations it
invokes. -/

/-! ## Python string primitives used by the program -/

/-- Lowercasing of one character as Python str.lower performs it on the
ASCII range, which is the only range the program compares against. -/
def pyLowerChar (c : Char) : Char :=
  if c.toNat ≥ 65 && c.toNat ≤ 90 then Char.ofNat (c.toNat + 32) else c

/-- Python str.lower, modelled characterwise on the underlying data. -/
def pyLower (s : String) : String := ⟨s.data.map pyLowerChar⟩

/-- Whitespace as recognized by Python str.strip. -/
def pyIsSpace (c : Char) : Bool :=
  c == ' ' || c == '\t' || c == '\n' || c == '\r' || c == '\x0b' || c == '\x0c'

/-- Python str.strip: drop leading and trailing whitespace. -/
def pyStrip (s : String) : String :=
  ⟨((s.data.dropWhile pyIsSpace).reverse.dropWhile pyIsSpace).reverse⟩

/-- Python str.endswith on full strings. -/
def pyEndsWith (s pat : String) : Bool :=
  List.isSuffixOf pat.data s.data

/-! ## Data model: cell values and tables -/

/-- A scalar cell value: a string, a number, or a blank (NaN) cell. -/
inductive Value where
  | vStr (s : String)
  | vNum (n : Int)
  | blank
deriving DecidableEq

/-- Python str() of a cell value, as astype(str) applies it elementwise.
A blank cell is a float NaN in the dataframe and stringifies to "nan". -/
def Value.pyStr : Value → String
  | .vStr s => s
  | .vNum n => toString n
  | .blank => "nan"

/-- A dataframe: ordered column labels and ordered rows of cells, each row
aligned positionally with the labels. -/
structure Table where
  cols : List String
  rows : List (List Value)
deriving DecidableEq

/-- DataFrame.empty of the dataframe library: true when either axis has
length zero, in particular when there are no data rows. -/
def Table.empty (t : Table) : Bool := t.rows.isEmpty || t.cols.isEmpty

/-! ## Table Loader: read_table -/

/-- The error kinds the loading stage can report. -/
inductive LoadError where
  | noFile
  | unsupportedFormat
  | parseError (msg : String)
  | emptyTable
deriving DecidableEq

/-- read_table from the source: lowercase the filename, dispatch on its
extension to the CSV or the spreadsheet parser, turn a parser exception
into a parse error, reject any other extension, and reject a parsed table
that is empty. The two parser arguments stand for the outcome of
pd.read_csv and pd.read_excel on the uploaded byte stream. -/
def read_table (name : String) (parseCsv parseExcel : Except String Table) :
    Except LoadError Table :=
  let filename := pyLower name
  if pyEndsWith filename ".csv" then
    match parseCsv with
    | .error e => .error (.parseError e)
    | .ok df => if df.empty then .error .emptyTable else .ok df
  else if pyEndsWith filename ".xlsx" || pyEndsWith filename ".xls" then
    match parseExcel with
    | .error e => .error (.parseError e)
    | .ok df => if df.empty then .error .emptyTable else .ok df
  else
    .error .unsupportedFormat

/-! ## Schema Validator: validate_columns -/

/-- The required column names absent from a column list, kept in the
order the requirement list gives them. -/
def missingCols (cols required : List String) : List String :=
  required.filter (fun c => !(cols.contains c))

/-- validate_columns from the source: build the list of missing required
columns and report a message naming all of them, or none when the table
has every required column. -/
def validate_columns (df : Table) (required_cols : List String)
    (file_label : String) : Option String :=
  let missing := missingCols df.cols required_cols
  if missing.isEmpty then none
  else some (file_label ++ " is missing required column(s): " ++
    String.intercalate ", " missing)

/-! ## Join-Filter Engine -/

/-- The key column both tables are joined on. -/
def keyCol : String := "Appointment ID"

/-- The status column of the first table. -/
def statusCol : String := "Completed"

/-- Value of the named column in one row, matching column labels with row
cells positionally, the way df[col] addresses an aligned row. -/
def getCell : List String → List Value → String → Value
  | [], _, _ => .blank
  | _ :: _, [], _ => .blank
  | c :: cs, v :: vs, name => if c = name then v else getCell cs vs name

/-- astype(str) on the key column applied to one row: every cell sitting
under a label equal to the key column is replaced by its string form. -/
def normalizeRow : List String → List Value → List Value
  | _, [] => []
  | [], vs => vs
  | c :: cs, v :: vs =>
    (if c = keyCol then Value.vStr v.pyStr else v) :: normalizeRow cs vs

/-- The astype(str) normalization step the source applies to the key
column of each table before merging. -/
def normalizeKey (t : Table) : Table :=
  ⟨t.cols, t.rows.map (normalizeRow t.cols)⟩

/-- The key value of a row of a table. -/
def keyOf (t : Table) (r : List Value) : Value := getCell t.cols r keyCol

/-- Column labels of pd.merge with the suffix pair ("_aloha",
"_unbilled"): the left columns come first in their order, then the right
columns without the key column; a non-key label present on both sides is
suffixed on each side, every other label is kept unchanged. -/
def mergedCols (ac bc : List String) : List String :=
  ac.map (fun c => if c != keyCol && bc.contains c then c ++ "_aloha" else c) ++
    (bc.filter (fun c => c != keyCol)).map
      (fun c => if ac.contains c then c ++ "_unbilled" else c)

/-- Cells of a right row with its key cells removed, since the merge
keeps a single copy of the join key. -/
def dropKeyRow : List String → List Value → List Value
  | _, [] => []
  | [], _ => []
  | c :: cs, v :: vs =>
    if c = keyCol then dropKeyRow cs vs else v :: dropKeyRow cs vs

/-- The joined rows one left row produces: one output row for every right
row carrying an equal key, left cells first. -/
def matchRows (A B : Table) (a : List Value) : List (List Value) :=
  (B.rows.filter (fun b => keyOf B b == keyOf A a)).map
    (fun b => a ++ dropKeyRow B.cols b)

/-- pd.merge of the source: inner join on the key column with the suffix
pair ("_aloha", "_unbilled"), rows in left-row-major order. -/
def merge (A B : Table) : Table :=
  ⟨mergedCols A.cols B.cols, A.rows.flatMap (matchRows A B)⟩

/-- The join step of the engine: normalize the key column of both tables
to strings, then inner join. -/
def runJoin (A B : Table) : Table := merge (normalizeKey A) (normalizeKey B)

/-- The multiset of key values of a table, as a list. -/
def keyList (t : Table) : List Value := t.rows.map (keyOf t)

/-- How many rows of a table carry the given key value. -/
def countKey (t : Table) (k : Value) : Nat :=
  (t.rows.filter (fun r => keyOf t r == k)).length

/-- The key values appearing in both tables. -/
def sharedKeys (A B : Table) : Finset Value :=
  (keyList A).toFinset ∩ (keyList B).toFinset

/-- The row predicate of the source filter: stringify the Completed cell,
strip surrounding whitespace, lowercase, and compare with "yes". -/
def completedYes (v : Value) : Bool := pyLower (pyStrip v.pyStr) == "yes"

/-- matched_completed_yes of the source: the joined rows whose Completed
value passes the predicate. -/
def filterCompleted (t : Table) : Table :=
  ⟨t.cols, t.rows.filter (fun r => completedYes (getCell t.cols r statusCol))⟩

/-! ## Exporter and display branch -/

/-- to_excel with index=False: the produced sheet is the header row of
column labels followed by the data rows, cells written verbatim. -/
def writeSheet (t : Table) : List (List Value) :=
  (t.cols.map Value.vStr) :: t.rows

/-- The column label pd.read_excel derives from one header cell. -/
def headerName : Value → String
  | .vStr s => s
  | v => v.pyStr

/-- pd.read_excel on a sheet: the first row is the header, the remaining
rows are the data; a sheet with no rows is a parse failure. -/
def parseSheet (s : List (List Value)) : Except String Table :=
  match s with
  | [] => .error "No columns to parse from file"
  | header :: rs => .ok ⟨header.map headerName, rs⟩

/-- What the display layer emits for the filtered table. -/
inductive ShellOutput where
  | download (label fileName mime : String) (sheet : List (List Value))
  | info (msg : String)
deriving DecidableEq

/-- The download branch of the source: when the filtered table is
nonempty, export it and offer the download with its fixed filename and
MIME type; otherwise show an informational message and export nothing. -/
def exportStep (t : Table) : ShellOutput :=
  if !t.empty then
    .download "Download Matched Sessions (Completed = Yes)"
      "matched_sessions_completed_yes.xlsx"
      "application/vnd.openxmlformats-officedocument.spreadsheetml.sheet"
      (writeSheet t)
  else
    .info "No rows found where Completed = Yes after inner join."

/-! ## Claims -/

/-- Claim C4: for every table and required list of column names, the
schema validator reports exactly the required names absent from the
table, in the order they were given, listing every absent name, and an
empty report means the table is valid. -/
theorem validate_columns_reports_missing (df : Table) (required : List String)
    (lbl : String) :
    (∀ c, c ∈ missingCols df.cols required ↔ c ∈ required ∧ c ∉ df.cols) ∧
    (missingCols df.cols required).Sublist required ∧
    (validate_columns df required lbl = none ↔ ∀ c ∈ required, c ∈ df.cols) := by
  refine ⟨?_, List.filter_sublist _, ?_⟩
  · intro c
    simp [missingCols, List.mem_filter, List.elem_iff]
  · unfold validate_columns
    have hiff : missingCols df.cols required = [] ↔ ∀ c ∈ required, c ∈ df.cols := by
      unfold missingCols
      rw [List.filter_eq_nil_iff]
      constructor
      · intro h c hc
        simpa [List.elem_iff] using h c hc
      · intro h c hc
        simp [List.elem_iff]
        exact h c hc
    constructor
    · intro h
      rw [← hiff]
      by_contra hne
      have hf : (missingCols df.cols required).isEmpty = false :=
        List.isEmpty_eq_false.mpr hne
      simp [hf] at h
    · intro h
      have he : missingCols df.cols required = [] := hiff.mpr h
      simp [he]

/-- Witness for claim C4 at a table missing one required column. -/
theorem validate_columns_reports_missing_witness :
    "Completed" ∈ missingCols ["Appointment ID"] ["Appointment ID", "Completed"] :=
  ((validate_columns_reports_missing ⟨["Appointment ID"], []⟩
    ["Appointment ID", "Completed"] "File 1 (Aloha)").1 "Completed").mpr (by decide)

/-- Claim C2: a joined row is kept by the status filter exactly when its
Completed value, stringified, stripped of surrounding whitespace and
lowercased, equals "yes"; the sample values "Yes", " yes ", "YES" pass
and "No", "", "yess" do not. -/
theorem filter_keeps_completed_yes (t : Table) (r : List Value) :
    (r ∈ (filterCompleted t).rows ↔
      r ∈ t.rows ∧ pyLower (pyStrip (getCell t.cols r statusCol).pyStr) = "yes") ∧
    completedYes (.vStr "Yes") = true ∧
    completedYes (.vStr " yes ") = true ∧
    completedYes (.vStr "YES") = true ∧
    completedYes (.vStr "No") = false ∧
    completedYes (.vStr "") = false ∧
    completedYes (.vStr "yess") = false := by
  refine ⟨?_, by decide, by decide, by decide, by decide, by decide, by decide⟩
  simp [filterCompleted, List.mem_filter, completedYes]

/-- Claim C8: the status filter is idempotent: filtering an already
filtered table again yields the same table. -/
theorem filterCompleted_idem (t : Table) :
    filterCompleted (filterCompleted t) = filterCompleted t := by
  unfold filterCompleted
  simp [List.filter_filter]

/-- Claim C6: the download artifact, with its fixed filename, is produced
exactly when the filtered table is nonempty; an empty filtered table
produces the informational message instead. -/
theorem export_iff_nonempty (t : Table) :
    (t.empty = false →
      exportStep t = .download "Download Matched Sessions (Completed = Yes)"
        "matched_sessions_completed_yes.xlsx"
        "application/vnd.openxmlformats-officedocument.spreadsheetml.sheet"
        (writeSheet t)) ∧
    (t.empty = true →
      exportStep t = .info "No rows found where Completed = Yes after inner join.") ∧
    ((∃ lbl mime sheet, exportStep t =
        .download lbl "matched_sessions_completed_yes.xlsx" mime sheet) ↔
      t.empty = false) := by
  by_cases h : t.empty
  · simp [exportStep, h]
  · simp only [Bool.not_eq_true] at h
    simp [exportStep, h]

/-- Witness for claim C6 at a one-row table. -/
theorem export_iff_nonempty_witness :
    exportStep ⟨["Appointment ID"], [[Value.vStr "1"]]⟩ =
      .download "Download Matched Sessions (Completed = Yes)"
        "matched_sessions_completed_yes.xlsx"
        "application/vnd.openxmlformats-officedocument.spreadsheetml.sheet"
        (writeSheet ⟨["Appointment ID"], [[Value.vStr "1"]]⟩) :=
  (export_iff_nonempty ⟨["Appointment ID"], [[Value.vStr "1"]]⟩).1 rfl

/-- One left row contributes as many joined rows as there are right rows
with an equal key. -/
lemma length_matchRows (A B : Table) (a : List Value) :
    (matchRows A B a).length = countKey B (keyOf A a) := by
  simp [matchRows, countKey]

/-- The joined row count is the sum, over the left rows, of the matching
right-row counts. -/
lemma merge_rows_length (A B : Table) :
    (merge A B).rows.length = ((keyList A).map (fun k => countKey B k)).sum := by
  unfold merge keyList
  rw [List.length_flatMap, List.map_map]
  congr 1
  apply List.map_congr_left
  intro a _
  simp only [Function.comp_apply]
  exact length_matchRows A B a

/-- Counting a key in the key list of a table counts its rows with that
key. -/
lemma count_keyList (t : Table) (k : Value) :
    (keyList t).count k = countKey t k := by
  unfold keyList countKey
  rw [List.count, List.countP_map, List.countP_eq_length_filter]
  rfl

/-- Claim C1: the joined row count equals the sum, over the key values
shared by both tables, of the product of their per-table multiplicities;
with disjoint key sets the join is empty. -/
theorem merge_row_count (A B : Table) :
    (merge A B).rows.length = ∑ k ∈ sharedKeys A B, countKey A k * countKey B k ∧
    (sharedKeys A B = ∅ → (merge A B).rows = []) := by
  have h1 : (merge A B).rows.length =
      ∑ k ∈ (keyList A).toFinset, countKey A k * countKey B k := by
    rw [merge_rows_length, Finset.sum_list_map_count]
    refine Finset.sum_congr rfl (fun k hk => ?_)
    rw [count_keyList, smul_eq_mul]
  have h2 : ∑ k ∈ (keyList A).toFinset, countKey A k * countKey B k =
      ∑ k ∈ sharedKeys A B, countKey A k * countKey B k := by
    symm
    apply Finset.sum_subset Finset.inter_subset_left
    intro k hkA hk
    have hnB : k ∉ keyList B := by
      intro hmem
      exact hk (Finset.mem_inter.mpr ⟨hkA, List.mem_toFinset.mpr hmem⟩)
    have hc : countKey B k = 0 := by
      rw [← count_keyList]
      exact List.count_eq_zero.mpr hnB
    rw [hc, Nat.mul_zero]
  refine ⟨h1.trans h2, fun hsh => ?_⟩
  have hlen := h1.trans h2
  rw [hsh, Finset.sum_empty] at hlen
  exact List.length_eq_zero.mp hlen

/-- Witness for claim C1 at two tables with disjoint key sets. -/
theorem merge_row_count_witness :
    (merge ⟨["Appointment ID"], [[Value.vStr "1"]]⟩
      ⟨["Appointment ID"], [[Value.vStr "2"]]⟩).rows = [] :=
  (merge_row_count ⟨["Appointment ID"], [[Value.vStr "1"]]⟩
    ⟨["Appointment ID"], [[Value.vStr "2"]]⟩).2 (by decide)

/-- Claim C3: the engine turns every key cell into its string form before
joining, so a numeric key 123 on one side joins with the string key "123"
on the other. -/
theorem normalizeKey_key_string :
    (∀ (cols : List String) (row : List Value), keyCol ∈ cols →
      cols.length ≤ row.length →
      getCell cols (normalizeRow cols row) keyCol =
        Value.vStr (getCell cols row keyCol).pyStr) ∧
    (runJoin ⟨[keyCol], [[Value.vNum 123]]⟩
      ⟨[keyCol], [[Value.vStr "123"]]⟩).rows.length = 1 := by
  constructor
  · intro cols
    induction cols with
    | nil =>
      intro row hmem hlen
      simp at hmem
    | cons c cs ih =>
      intro row hmem hlen
      match row with
      | [] => simp at hlen
      | v :: vs =>
        by_cases hc : c = keyCol
        · subst hc
          simp [normalizeRow, getCell]
        · have hmem2 : keyCol ∈ cs := by
            cases List.mem_cons.mp hmem with
            | inl h => exact absurd h.symm hc
            | inr h => exact h
          have hlen2 : cs.length ≤ vs.length := by
            simp at hlen
            omega
          simp [normalizeRow, getCell, hc]
          exact ih vs hmem2 hlen2
  · decide

/-- Witness for claim C3 at a one-column row. -/
theorem normalizeKey_key_string_witness :
    getCell [keyCol] (normalizeRow [keyCol] [Value.vNum 7]) keyCol =
      Value.vStr (getCell [keyCol] [Value.vNum 7] keyCol).pyStr :=
  normalizeKey_key_string.1 [keyCol] [Value.vNum 7] (by decide) (by decide)

/-- A table without data rows is empty in the dataframe sense. -/
lemma Table.empty_of_rows_nil (t : Table) (ht : t.rows = []) : t.empty = true := by
  simp [Table.empty, ht]

/-- Claim C5: an uploaded file that parses successfully but holds zero
data rows makes the loader fail with the empty-table error instead of
returning a table, on both the CSV and the spreadsheet path. -/
theorem read_table_empty_fails (name : String) (t : Table) (ht : t.rows = []) :
    (pyEndsWith (pyLower name) ".csv" = true →
      ∀ pe, read_table name (.ok t) pe = .error .emptyTable) ∧
    (pyEndsWith (pyLower name) ".csv" = false →
      (pyEndsWith (pyLower name) ".xlsx" = true ∨
        pyEndsWith (pyLower name) ".xls" = true) →
      ∀ pc, read_table name pc (.ok t) = .error .emptyTable) ∧
    (∀ pc pe, read_table name pc pe ≠ .ok t) := by
  have hte : t.empty = true := Table.empty_of_rows_nil t ht
  refine ⟨?_, ?_, ?_⟩
  · intro h pe
    simp [read_table, h, hte]
  · intro h1 h2 pc
    have hor : (pyEndsWith (pyLower name) ".xlsx" ||
        pyEndsWith (pyLower name) ".xls") = true := by
      rcases h2 with h | h <;> simp [h]
    simp [read_table, h1, hor, hte]
  · intro pc pe hok
    by_cases h1 : pyEndsWith (pyLower name) ".csv"
    · cases pc with
      | error e => simp [read_table, h1] at hok
      | ok df =>
        by_cases hdf : df.empty
        · simp [read_table, h1, hdf] at hok
        · simp [read_table, h1, hdf] at hok
          rw [hok] at hdf
          exact hdf hte
    · by_cases h2 : (pyEndsWith (pyLower name) ".xlsx" ||
          pyEndsWith (pyLower name) ".xls") = true
      · cases pe with
        | error e => simp [read_table, h1, h2] at hok
        | ok df =>
          by_cases hdf : df.empty
          · simp [read_table, h1, h2, hdf] at hok
          · simp [read_table, h1, h2, hdf] at hok
            rw [hok] at hdf
            exact hdf hte
      · simp [read_table, h1, h2] at hok

/-- Witness for claim C5 at a header-only CSV. -/
theorem read_table_empty_fails_witness :
    read_table "empty.csv" (.ok ⟨["Appointment ID", "Completed"], []⟩)
      (.error "x") = .error .emptyTable :=
  (read_table_empty_fails "empty.csv" ⟨["Appointment ID", "Completed"], []⟩
    rfl).1 (by decide) (.error "x")

/-- Claim C7: in the joined table a non-key label present in both inputs
appears with the "_aloha" suffix for the left copy and the "_unbilled"
suffix for the right copy, while a non-colliding label keeps its name. -/
theorem merge_suffix_columns (A B : Table) (c : String) :
    ((merge A B).cols = mergedCols A.cols B.cols) ∧
    (c ∈ A.cols → c ∈ B.cols → c ≠ keyCol →
      (c ++ "_aloha") ∈ (merge A B).cols ∧
        (c ++ "_unbilled") ∈ (merge A B).cols) ∧
    (c ∈ A.cols → (c ∉ B.cols ∨ c = keyCol) → c ∈ (merge A B).cols) ∧
    (c ∈ B.cols → c ∉ A.cols → c ≠ keyCol → c ∈ (merge A B).cols) := by
  refine ⟨rfl, ?_, ?_, ?_⟩
  · intro hA hB hk
    constructor
    · apply List.mem_append_left
      refine List.mem_map.mpr ⟨c, hA, ?_⟩
      simp [hk, List.elem_iff, hB]
    · apply List.mem_append_right
      refine List.mem_map.mpr ⟨c, ?_, ?_⟩
      · exact List.mem_filter.mpr ⟨hB, by simp [hk]⟩
      · simp [List.elem_iff, hA]
  · intro hA hnB
    apply List.mem_append_left
    refine List.mem_map.mpr ⟨c, hA, ?_⟩
    rcases hnB with h | h
    · simp [List.elem_iff, h]
    · simp [h]
  · intro hB hnA hk
    apply List.mem_append_right
    refine List.mem_map.mpr ⟨c, List.mem_filter.mpr ⟨hB, by simp [hk]⟩, ?_⟩
    simp [List.elem_iff, hnA]

/-- Witness for claim C7 at two tables sharing the non-key label Name. -/
theorem merge_suffix_columns_witness :
    ("Name" ++ "_aloha") ∈
      (merge ⟨["Appointment ID", "Name"], []⟩
        ⟨["Appointment ID", "Name"], []⟩).cols :=
  ((merge_suffix_columns ⟨["Appointment ID", "Name"], []⟩
    ⟨["Appointment ID", "Name"], []⟩ "Name").2.1 (by decide) (by decide)
    (by decide)).1

/-- Claim C9: exporting a nonempty result table and reading the produced
sheet back through the loader returns the same table: same labels in the
same order and same cells in the same row order. -/
theorem export_roundtrip (t : Table) (hr : t.rows ≠ []) (hc : t.cols ≠ [])
    (pc : Except String Table) :
    read_table "matched_sessions_completed_yes.xlsx" pc
      (parseSheet (writeSheet t)) = .ok t := by
  have h1 : pyEndsWith (pyLower "matched_sessions_completed_yes.xlsx")
      ".csv" = false := by decide
  have h2 : pyEndsWith (pyLower "matched_sessions_completed_yes.xlsx")
      ".xlsx" = true := by decide
  have hmap : List.map (headerName ∘ Value.vStr) t.cols = t.cols := by
    have hid : (headerName ∘ Value.vStr) = id := funext (fun s => rfl)
    rw [hid, List.map_id]
  have hps : parseSheet (writeSheet t) = .ok t := by
    simp [parseSheet, writeSheet, List.map_map, hmap]
  have hne : t.empty = false := by
    simp [Table.empty, List.isEmpty_eq_false]
    exact ⟨hr, hc⟩
  simp [read_table, h1, h2, hps, hne]

/-- Witness for claim C9 at a one-row result table. -/
theorem export_roundtrip_witness :
    read_table "matched_sessions_completed_yes.xlsx" (.error "e")
      (parseSheet (writeSheet ⟨["Appointment ID"], [[Value.vStr "1"]]⟩)) =
      .ok ⟨["Appointment ID"], [[Value.vStr "1"]]⟩ :=
  export_roundtrip ⟨["Appointment ID"], [[Value.vStr "1"]]⟩ (by decide)
    (by decide) (.error "e")

/-- Claim C10: the loader inspects the lowercased filename, so uppercase
extensions are dispatched to the matching parser, and the unsupported
format failure happens exactly when the lowercased name ends in none of
the three known extensions. -/
theorem read_table_dispatch (name : String) (pc pe : Except String Table)
    (t : Table) :
    (read_table name pc pe = .error .unsupportedFormat ↔
      ¬(pyEndsWith (pyLower name) ".csv" = true ∨
        pyEndsWith (pyLower name) ".xlsx" = true ∨
        pyEndsWith (pyLower name) ".xls" = true)) ∧
    (t.empty = false → read_table "DATA.CSV" (.ok t) pe = .ok t) ∧
    (t.empty = false → read_table "DATA.XLSX" pc (.ok t) = .ok t) := by
  refine ⟨?_, ?_, ?_⟩
  · by_cases h1 : pyEndsWith (pyLower name) ".csv"
    · simp [read_table, h1]
      cases pc with
      | error e => simp
      | ok df =>
        by_cases hdf : df.empty <;> simp [hdf]
    · by_cases h2 : pyEndsWith (pyLower name) ".xlsx"
      · simp [read_table, h1, h2]
        cases pe with
        | error e => simp
        | ok df =>
          by_cases hdf : df.empty <;> simp [hdf]
      · by_cases h3 : pyEndsWith (pyLower name) ".xls"
        · simp [read_table, h1, h2, h3]
          cases pe with
          | error e => simp
          | ok df =>
            by_cases hdf : df.empty <;> simp [hdf]
        · simp [read_table, h1, h2, h3]
  · intro h
    have hcsv : pyEndsWith (pyLower "DATA.CSV") ".csv" = true := by decide
    simp [read_table, hcsv, h]
  · intro h
    have hx1 : pyEndsWith (pyLower "DATA.XLSX") ".csv" = false := by decide
    have hx2 : pyEndsWith (pyLower "DATA.XLSX") ".xlsx" = true := by decide
    simp [read_table, hx1, hx2, h]

/-- Witness for claim C10 at an uppercase CSV filename. -/
theorem read_table_dispatch_witness :
    read_table "DATA.CSV" (.ok ⟨["A"], [[Value.vStr "x"]]⟩) (.error "e") =
      .ok ⟨["A"], [[Value.vStr "x"]]⟩ :=
  (read_table_dispatch "DATA.CSV" (.ok ⟨["A"], [[Value.vStr "x"]]⟩)
    (.error "e") ⟨["A"], [[Value.vStr "x"]]⟩).2.1 rfl
